import Mathlib

/-!
Verification of the `runai_model_streamer.libstreamer` binding
(`src/py/runai_model_streamer/runai_model_streamer/libstreamer/__init__.py`)
against its natural-language specification.

The Python module is a thin ctypes shim: it resolves the native library
path at import time and declares the C signatures of the five engine
entry points (`runai_start`, `runai_end`, `runai_request`,
`runai_response`, `runai_response_str`).  We embed:

* the ctypes signature declarations as data (`CType`, `CFunSig`);
* the path-resolution logic (`_get_library_path`, `STREAMER_LIBRARY`,
  module import) with paths modelled as component lists;
* the protocol core described by the spec (session lifecycle, batch
  validation, credential encoding, status resolution).  The Python
  wrapper that drives the binding is not among the sources — only the
  ctypes declarations are — so those definitions are modelled from the
  spec and carry a doc comment saying so.
-/

namespace Libstreamer

/-- ctypes C type expressions as they appear in the binding:
`c_int`, `c_uint32`, `c_size_t`, `c_char_p`, `c_void_p`
(with `t_streamer = ctypes.c_void_p`) and `ctypes.POINTER(·)`. -/
inductive CType where
  | cint
  | cuint32
  | csize_t
  | cchar_p
  | cvoid_p
  | cvoid
  | ptr : CType → CType
deriving DecidableEq, Repr

/-- `t_streamer = ctypes.c_void_p` (line 21 of the module). -/
def t_streamer : CType := CType.cvoid_p

/-- A ctypes foreign-function declaration: its `argtypes` list and its
`restype`.  ctypes defaults `restype` to `c_int` when it is not set. -/
structure CFunSig where
  argtypes : List CType
  restype : CType
deriving DecidableEq, Repr

/-- `fn_runai_start`: `argtypes = [POINTER(t_streamer)]`, `restype = c_int`
(lines 28–30). -/
def fn_runai_start_sig : CFunSig :=
  { argtypes := [CType.ptr t_streamer], restype := CType.cint }

/-- `fn_runai_end`: `argtypes = [t_streamer]`; no `restype` assignment, so
ctypes keeps the default `c_int` (lines 32–33). -/
def fn_runai_end_sig : CFunSig :=
  { argtypes := [t_streamer], restype := CType.cint }

/-- `fn_runai_request` (lines 35–51): session handle, `num_files`
(`c_uint32`), the `paths`/`file_offsets`/`bytesizes`/`dsts` arrays, the
`num_sizes` out-parameter (`POINTER(c_uint32)`), the `internal_sizes`
out-parameter, and the five optional credential strings (`c_char_p`). -/
def fn_runai_request_sig : CFunSig :=
  { argtypes :=
      [t_streamer,
       CType.cuint32,                      -- num_files
       CType.ptr CType.cchar_p,            -- paths
       CType.ptr CType.csize_t,            -- file_offsets
       CType.ptr CType.csize_t,            -- bytesizes
       CType.ptr CType.cvoid_p,            -- dsts
       CType.ptr CType.cuint32,            -- num_sizes
       CType.ptr (CType.ptr CType.csize_t), -- internal_sizes
       CType.cchar_p,                      -- key
       CType.cchar_p,                      -- secret
       CType.cchar_p,                      -- token
       CType.cchar_p,                      -- region
       CType.cchar_p],                     -- endpoint
    restype := CType.cint }

/-- `fn_runai_response` (lines 53–59): session handle plus two
`POINTER(c_uint32)` out-parameters; `restype = c_int`. -/
def fn_runai_response_sig : CFunSig :=
  { argtypes := [t_streamer, CType.ptr CType.cuint32, CType.ptr CType.cuint32],
    restype := CType.cint }

/-- `fn_runai_response_str` (lines 61–63): one `c_int` argument,
`restype = c_char_p`. -/
def fn_runai_response_str_sig : CFunSig :=
  { argtypes := [CType.cint], restype := CType.cchar_p }

/-- Whether a C type expression is a pointer (a `ctypes.POINTER(...)`). -/
def CType.isPtr : CType → Bool
  | CType.ptr _ => true
  | _ => false

/-- Output channels of a declaration all of whose pointer arguments are
out-parameters (true of `runai_start` and `runai_response`, which take no
array inputs): the pointer arguments plus the non-void return value. -/
def sigOutputChannels (sig : CFunSig) : Nat :=
  (sig.argtypes.filter CType.isPtr).length +
    (if sig.restype = CType.cvoid then 0 else 1)

/-- Bit width of a C scalar type, given the platform word size in bits
(`size_t` and pointers are word-sized; `int` and `uint32` are 32-bit). -/
def CType.bitWidth (wordBits : Nat) : CType → Nat
  | CType.cint => 32
  | CType.cuint32 => 32
  | CType.csize_t => wordBits
  | CType.cchar_p => wordBits
  | CType.cvoid_p => wordBits
  | CType.cvoid => 0
  | CType.ptr _ => wordBits

/-! ## Path resolution (`_get_library_path`, `STREAMER_LIBRARY`)

Filesystem paths are modelled as an absoluteness flag plus the list of
path components; `os.path.join` with a relative second argument appends
components, and `os.path.abspath`/`os.path.dirname` of the module file
yield an absolute directory. -/

/-- A filesystem path: absoluteness flag and component list. -/
structure PyPath where
  absolute : Bool
  components : List String
deriving DecidableEq, Repr

/-- `os.path.join(a, b)`: an absolute `b` replaces `a`, a relative `b`
appends its components to `a`. -/
def osPathJoin (a b : PyPath) : PyPath :=
  if b.absolute then b
  else { absolute := a.absolute, components := a.components ++ b.components }

/-- A bare file name as a relative path of one component. -/
def relFile (name : String) : PyPath :=
  { absolute := false, components := [name] }

/-- Render a path back to its string form (components separated by `/`,
absolute paths with a leading `/`). -/
def PyPath.render (p : PyPath) : String :=
  (if p.absolute then "/" else "") ++ String.intercalate "/" p.components

/-- `_get_library_path()` (lines 6–15): join the module directory with
`"lib"`, then with `"libstreamer.dylib"` when `sys.platform == "darwin"`
and `"libstreamer.so"` otherwise.  `moduleDir` stands for
`os.path.dirname(os.path.abspath(__file__))`. -/
def get_library_path (moduleDir : PyPath) (platform : String) : PyPath :=
  let lib_dir := osPathJoin moduleDir (relFile "lib")
  let lib_name := if platform = "darwin" then "libstreamer.dylib" else "libstreamer.so"
  osPathJoin lib_dir (relFile lib_name)

/-- `DEFAULT_STREAMER_LIBRARY = _get_library_path()` (line 18), rendered
to the string ctypes receives. -/
def DEFAULT_STREAMER_LIBRARY (moduleDir : PyPath) (platform : String) : String :=
  (get_library_path moduleDir platform).render

/-- `STREAMER_LIBRARY = os.environ.get("STREAMER_LIBRARY",
DEFAULT_STREAMER_LIBRARY)` (line 19): `envVal` is the value of the
`STREAMER_LIBRARY` environment variable at module import, if set. -/
def STREAMER_LIBRARY (envVal : Option String) (moduleDir : PyPath)
    (platform : String) : String :=
  envVal.getD (DEFAULT_STREAMER_LIBRARY moduleDir platform)

/-! ## Module import (`dll = LibstreamerDLLWrapper(STREAMER_LIBRARY)`) -/

/-- The state the module holds after a successful import: the resolved
library path and the handle of the loaded library. -/
structure ModuleState where
  libraryPath : String
  dllHandle : Nat
deriving DecidableEq, Repr

/-- Module-level initialization (lines 18–19 and 66): resolve the library
path once, then `ctypes.CDLL` it inside `LibstreamerDLLWrapper.__init__`.
`loader` models `ctypes.CDLL`: `some handle` when the artifact at that
path is loadable, `none` when `CDLL` raises `OSError`.  The returned list
records every path a load was attempted on.  A load failure propagates
out of the import (fatal, no retry). -/
def moduleImport (envVal : Option String) (moduleDir : PyPath)
    (platform : String) (loader : String → Option Nat) :
    Except String ModuleState × List String :=
  let path := STREAMER_LIBRARY envVal moduleDir platform
  match loader path with
  | some h => (Except.ok { libraryPath := path, dllHandle := h }, [path])
  | none => (Except.error ("OSError: cannot load " ++ path), [path])

/-! ## Protocol core

The Python sources contain only the ctypes declarations; the wrapper that
drives them (the Session Lifecycle Manager, Batch Request Encoder,
Completion Poller and Status Resolver of §2–§4 of the spec) is not among
them.  The definitions below are therefore modelled from the spec, as
their doc comments state. -/

/-- One requested transfer unit (spec §3 StreamItem): source locator,
byte offset, byte count, and the capacity of the caller-owned destination
region. -/
structure StreamItem where
  source : String
  file_offset : Nat
  length : Nat
  dstCapacity : Nat
deriving DecidableEq, Repr

/-- Optional storage credentials (spec §3): each of the five fields is
independently optional. -/
structure StorageCredentials where
  key : Option String
  secret : Option String
  token : Option String
  region : Option String
  endpoint : Option String
deriving DecidableEq, Repr

/-- A value passed for a `c_char_p` argument: ctypes maps Python `None`
to a NULL pointer and a bytes object to a pointer to its contents, so the
two are distinct constructors. -/
inductive CCharPArg where
  | null
  | cstr (s : String)
deriving DecidableEq, Repr

/-- Encoding of one optional credential field to its `c_char_p` argument:
an absent field becomes NULL, a present field (even the empty string)
becomes a C string. -/
def encodeOptStr : Option String → CCharPArg
  | none => CCharPArg.null
  | some s => CCharPArg.cstr s

/-- The five credential arguments of `runai_request`, each encoded from
its own field alone. -/
def encodeCredentials (c : StorageCredentials) : List CCharPArg :=
  [encodeOptStr c.key, encodeOptStr c.secret, encodeOptStr c.token,
   encodeOptStr c.region, encodeOptStr c.endpoint]

/-- The error taxonomy of spec §4/§7. -/
inductive StreamerError where
  | InvalidArgument
  | SessionClosed
  | EngineUnavailable (code : Int) (msg : String)
  | EngineRejected (code : Int) (msg : String)
  | ItemFailed (index : Nat) (code : Int) (msg : String)
deriving DecidableEq, Repr

/-- Errors carrying a status code reported by the engine (spec §7:
session errors, engine-rejected batches, per-item failures). -/
def StreamerError.isEngineReported : StreamerError → Bool
  | StreamerError.EngineUnavailable _ _ => true
  | StreamerError.EngineRejected _ _ => true
  | StreamerError.ItemFailed _ _ _ => true
  | _ => false

/-- Protocol-misuse errors, detected locally (spec §7: polling a closed
session, closing twice, submitting after close). -/
def StreamerError.isProtocolMisuse : StreamerError → Bool
  | StreamerError.SessionClosed => true
  | _ => false

/-- Modelled from the spec: the engine behind the four primitives of §6,
as the results its entry points would report.  `startResult` is the
status code and handle of `runai_start`; `submitResult` is the status
code and the `num_sizes` count `runai_request` writes; `pollResult` is
the `c_int` return and the two `c_uint32` out-values of
`runai_response`. -/
structure Engine where
  startResult : Int × Nat
  submitResult : List StreamItem → StorageCredentials → Int × Nat
  pollResult : Nat → Int × Nat × Nat

/-- A recorded crossing of the engine boundary, carrying the wire-shape
arguments of the call. -/
inductive EngineCall where
  | startCall
  | submitCall (numFiles : Nat) (paths : List String) (fileOffsets : List Nat)
      (bytesizes : List Nat) (creds : List CCharPArg)
  | pollCall (handle : Nat)
  | endCall (handle : Nat)
deriving DecidableEq, Repr

/-- A client-side session: the opaque engine handle, the local
closed flag the spec asks for, and the number of completion slots still
outstanding. -/
structure Session where
  handle : Nat
  closed : Bool
  pending : Nat
deriving DecidableEq, Repr

/-- Modelled from the spec: the Status Resolver (§4.4); the native
`runai_response_str` body is not in the Python sources.  `0` resolves to
a success-indicating string, any other code to a generic
`unknown error <code>` message, never failing. -/
def resolve (code : Int) : String :=
  if code = 0 then "success" else "unknown error " ++ toString code

/-- Whether a single item satisfies the local constraints of §4.2:
`length > 0` and destination capacity at least `length`. -/
def itemValid (it : StreamItem) : Bool :=
  decide (0 < it.length) && decide (it.length ≤ it.dstCapacity)

/-- Whether a whole batch passes local validation: non-empty and every
item valid. -/
def batchValid (items : List StreamItem) : Bool :=
  !items.isEmpty && items.all itemValid

/-- Modelled from the spec: `open()` of the Session Lifecycle Manager
(§4.1); the Python wrapper around `runai_start` is not in the sources.
A zero status yields a live session around the returned handle; any
other status fails with `EngineUnavailable(code, message)`. -/
def openSession (eng : Engine) : Except StreamerError Session × List EngineCall :=
  let code := eng.startResult.1
  if code = 0 then
    (Except.ok { handle := eng.startResult.2, closed := false, pending := 0 },
     [EngineCall.startCall])
  else
    (Except.error (StreamerError.EngineUnavailable code (resolve code)),
     [EngineCall.startCall])

/-- Modelled from the spec: `submit` of the Batch Request Encoder (§4.2);
the Python wrapper around `runai_request` is not in the sources.  A
closed session fails locally with `SessionClosed`; an invalid batch fails
locally with `InvalidArgument`; in both cases the engine boundary is not
crossed (the call trace is empty).  Otherwise the engine is invoked with
the encoded wire shape and, on status 0, the `num_sizes` count it
reported is returned to the caller. -/
def submit (eng : Engine) (s : Session) (items : List StreamItem)
    (creds : StorageCredentials) :
    Except StreamerError (Session × Nat) × List EngineCall :=
  if s.closed then (Except.error StreamerError.SessionClosed, [])
  else if !batchValid items then (Except.error StreamerError.InvalidArgument, [])
  else
    let code := (eng.submitResult items creds).1
    let numSizes := (eng.submitResult items creds).2
    let call := EngineCall.submitCall items.length (items.map StreamItem.source)
      (items.map StreamItem.file_offset) (items.map StreamItem.length)
      (encodeCredentials creds)
    if code = 0 then
      (Except.ok ({ s with pending := s.pending + numSizes }, numSizes), [call])
    else
      (Except.error (StreamerError.EngineRejected code (resolve code)), [call])

/-- Modelled from the spec: `poll` of the Completion Poller (§4.3); the
Python wrapper around `runai_response` is not in the sources.  A closed
session fails locally with `SessionClosed` without crossing the engine
boundary; otherwise the raw result is decoded into the completion event
`(item_index, status_code)`, a non-zero status surfacing as
`ItemFailed(index, code, message)`. -/
def poll (eng : Engine) (s : Session) :
    Except StreamerError (Nat × Int) × List EngineCall :=
  if s.closed then (Except.error StreamerError.SessionClosed, [])
  else
    let ret := (eng.pollResult s.handle).1
    let idx := (eng.pollResult s.handle).2.1
    if ret = 0 then (Except.ok (idx, ret), [EngineCall.pollCall s.handle])
    else
      (Except.error (StreamerError.ItemFailed idx ret (resolve ret)),
       [EngineCall.pollCall s.handle])

/-- Modelled from the spec: `close` of the Session Lifecycle Manager
(§4.1); the Python wrapper around `runai_end` is not in the sources.  A
live session is released through the engine and marked closed locally; a
session already closed fails locally with `SessionClosed` and does not
reach the engine. -/
def closeSession (_eng : Engine) (s : Session) :
    Except StreamerError Session × List EngineCall :=
  if s.closed then (Except.error StreamerError.SessionClosed, [])
  else (Except.ok { s with closed := true }, [EngineCall.endCall s.handle])

/-- Largest value representable in a C scalar type, given the platform
word size in bits. -/
def CType.maxValue (wordBits : Nat) (t : CType) : Nat :=
  2 ^ (t.bitWidth wordBits) - 1

/-! ## Concrete instances -/

/-- An engine that opens with handle 42, accepts every batch and reports
7 completion slots for it. -/
def engAccept7 : Engine :=
  { startResult := (0, 42),
    submitResult := fun _ _ => (0, 7),
    pollResult := fun _ => (0, 0, 0) }

/-- An engine whose start reports status 5 (unavailable). -/
def engDown : Engine :=
  { startResult := (5, 0),
    submitResult := fun _ _ => (5, 0),
    pollResult := fun _ => (5, 0, 0) }

/-- A valid sample transfer item. -/
def sampleItem : StreamItem :=
  { source := "model.bin", file_offset := 0, length := 10, dstCapacity := 16 }

/-- An item violating the capacity constraint. -/
def overlongItem : StreamItem :=
  { source := "model.bin", file_offset := 0, length := 32, dstCapacity := 16 }

/-- An open session on handle 42. -/
def openS : Session := { handle := 42, closed := false, pending := 0 }

/-- All credential fields absent. -/
def noCreds : StorageCredentials :=
  { key := none, secret := none, token := none, region := none, endpoint := none }

/-- A mixed credential record: empty-string key, absent secret and token,
present region and endpoint. -/
def mixedCreds : StorageCredentials :=
  { key := some "", secret := none, token := none,
    region := some "us-east-1", endpoint := some "http://s3.local" }

/-- A sample absolute package directory. -/
def pkgDir : PyPath := { absolute := true, components := ["opt", "pkg"] }

/-- A loader on which every `CDLL` attempt fails. -/
def failingLoader : String → Option Nat := fun _ => none

/-- A loader that loads every path with handle 1. -/
def okLoader : String → Option Nat := fun _ => some 1

/-! ## Theorems -/

/-- C6: the open operation takes no inputs and returns a status code
together with, on success (status 0), an opaque session handle; the
binding realizes this as an integer status return plus a single
session-handle out-parameter, and any non-zero status produces no live
session. -/
theorem C6_open_binding_and_session (eng : Engine) :
    fn_runai_start_sig.argtypes = [CType.ptr t_streamer] ∧
    fn_runai_start_sig.restype = CType.cint ∧
    sigOutputChannels fn_runai_start_sig = 2 ∧
    (eng.startResult.1 = 0 →
      (openSession eng).1 =
        Except.ok { handle := eng.startResult.2, closed := false, pending := 0 }) ∧
    (eng.startResult.1 ≠ 0 → (openSession eng).1.isOk = false) := by
  refine ⟨rfl, rfl, by decide, ?_, ?_⟩ <;> intro h <;>
    simp [openSession, h, Except.isOk, Except.toBool]

/-- C6 witness: a zero start status yields a live session, a non-zero
one yields none. -/
theorem C6_witness :
    (openSession engAccept7).1 =
      Except.ok { handle := 42, closed := false, pending := 0 } ∧
    (openSession engDown).1.isOk = false :=
  ⟨(C6_open_binding_and_session engAccept7).2.2.2.1 rfl,
   (C6_open_binding_and_session engDown).2.2.2.2 (by decide)⟩

/-- C5 counterexample: the claim says poll produces exactly two outputs
(a status code and the completed item index), but the binding of
`runai_response` declares three output channels: an integer status
return plus two `POINTER(c_uint32)` out-parameters. -/
theorem C5_two_outputs_cex :
    sigOutputChannels fn_runai_response_sig = 3 ∧
    ¬ sigOutputChannels fn_runai_response_sig = 2 := by decide

/-- C5 (amended): poll takes exactly one input (the session handle), and
the binding declares three output channels — an integer status return
plus two 32-bit unsigned out-parameters — from which the poller decodes
the completion event pair (item_index, status_code). -/
theorem C5_poll_binding_amended :
    fn_runai_response_sig.argtypes =
      [t_streamer, CType.ptr CType.cuint32, CType.ptr CType.cuint32] ∧
    fn_runai_response_sig.restype = CType.cint ∧
    (fn_runai_response_sig.argtypes.filter fun t => !t.isPtr) = [t_streamer] ∧
    sigOutputChannels fn_runai_response_sig = 3 ∧
    (∀ eng s, s.closed = false → (eng.pollResult s.handle).1 = 0 →
      (poll eng s).1 =
        Except.ok ((eng.pollResult s.handle).2.1, (eng.pollResult s.handle).1)) := by
  refine ⟨rfl, rfl, by decide, by decide, ?_⟩
  intro eng s hs hret
  simp [poll, hs, hret]

/-- C5 witness: a successful poll on an open session decodes the
completion event pair. -/
theorem C5_witness :
    (poll engAccept7 openS).1 = Except.ok (0, 0) :=
  (C5_poll_binding_amended).2.2.2.2 engAccept7 openS rfl rfl

/-- C7: the status resolver returns a stable, non-empty string for every
integer status code; 0 resolves to a success-indicating string and every
unknown code to a generic message, never failing; the native binding
takes a `c_int` and returns a C string. -/
theorem C7_resolve_total_nonempty :
    fn_runai_response_str_sig.argtypes = [CType.cint] ∧
    fn_runai_response_str_sig.restype = CType.cchar_p ∧
    resolve 0 = "success" ∧
    ∀ code : Int, 0 < (resolve code).length := by
  refine ⟨rfl, rfl, rfl, ?_⟩
  intro code
  unfold resolve
  split
  · decide
  · rw [String.length_append]
    have h14 : ("unknown error " : String).length = 14 := rfl
    omega

/-- C10: at the binding interface the batch size (`num_files`) and both
poll out-values are 32-bit unsigned integers, bounding batches and
delivered indices by 2^32 - 1, while per-item file offsets and byte
lengths are word-sized `size_t` values. -/
theorem C10_integer_widths :
    fn_runai_request_sig.argtypes[1]? = some CType.cuint32 ∧
    fn_runai_response_sig.argtypes[1]? = some (CType.ptr CType.cuint32) ∧
    fn_runai_response_sig.argtypes[2]? = some (CType.ptr CType.cuint32) ∧
    fn_runai_request_sig.argtypes[3]? = some (CType.ptr CType.csize_t) ∧
    fn_runai_request_sig.argtypes[4]? = some (CType.ptr CType.csize_t) ∧
    (∀ wordBits, CType.maxValue wordBits CType.cuint32 = 2 ^ 32 - 1) ∧
    (∀ wordBits, CType.bitWidth wordBits CType.csize_t = wordBits) :=
  ⟨rfl, rfl, rfl, rfl, rfl, fun _ => rfl, fun _ => rfl⟩

/-- C8: the native library path is resolved exactly once at module
initialization: the load-attempt trace is the singleton of the resolved
path, a successful initialization holds exactly that path for the life
of the process, and an unloadable artifact makes the initialization
itself fail immediately with no retry. -/
theorem C8_engine_artifact_selection (envVal : Option String)
    (moduleDir : PyPath) (platform : String) (loader : String → Option Nat) :
    (moduleImport envVal moduleDir platform loader).2 =
      [STREAMER_LIBRARY envVal moduleDir platform] ∧
    (∀ st, (moduleImport envVal moduleDir platform loader).1 = Except.ok st →
      st.libraryPath = STREAMER_LIBRARY envVal moduleDir platform) ∧
    (loader (STREAMER_LIBRARY envVal moduleDir platform) = none →
      (moduleImport envVal moduleDir platform loader).1 =
        Except.error
          ("OSError: cannot load " ++ STREAMER_LIBRARY envVal moduleDir platform)) := by
  unfold moduleImport
  cases hl : loader (STREAMER_LIBRARY envVal moduleDir platform) with
  | none => simp [hl]
  | some h =>
      refine ⟨by simp [hl], ?_, by simp [hl]⟩
      intro st hst
      simp [hl] at hst
      rw [← hst]

/-- C8 witness: with no environment override and a loader on which every
attempt fails, the import attempts exactly the one resolved path and
fails fatally. -/
theorem C8_witness :
    (moduleImport none pkgDir "linux" failingLoader).2 =
      [STREAMER_LIBRARY none pkgDir "linux"] ∧
    (moduleImport none pkgDir "linux" failingLoader).1 =
      Except.error ("OSError: cannot load " ++ STREAMER_LIBRARY none pkgDir "linux") :=
  ⟨(C8_engine_artifact_selection none pkgDir "linux" failingLoader).1,
   (C8_engine_artifact_selection none pkgDir "linux" failingLoader).2.2 rfl⟩

/-- C9: for every platform, `_get_library_path` returns an absolute path
whose components end in `lib` joined with `libstreamer.dylib` on darwin
and `libstreamer.so` on every other platform, and a `STREAMER_LIBRARY`
environment value set at import is used verbatim instead. -/
theorem C9_get_library_path (moduleDir : PyPath) (platform : String)
    (habs : moduleDir.absolute = true) :
    (get_library_path moduleDir platform).absolute = true ∧
    (platform = "darwin" →
      ["lib", "libstreamer.dylib"] <:+ (get_library_path moduleDir platform).components) ∧
    (platform ≠ "darwin" →
      ["lib", "libstreamer.so"] <:+ (get_library_path moduleDir platform).components) ∧
    (∀ v, STREAMER_LIBRARY (some v) moduleDir platform = v) := by
  refine ⟨?_, ?_, ?_, fun v => rfl⟩
  · simp [get_library_path, osPathJoin, relFile, habs]
  · intro hd
    simp [get_library_path, osPathJoin, relFile, hd, List.append_assoc]
  · intro hd
    simp [get_library_path, osPathJoin, relFile, hd, List.append_assoc]

/-- C9 witness: at a concrete absolute module directory, the default
path is absolute with the right platform-dependent tail, and the
environment override wins verbatim. -/
theorem C9_witness :
    (get_library_path pkgDir "linux").absolute = true ∧
    ["lib", "libstreamer.so"] <:+ (get_library_path pkgDir "linux").components ∧
    ["lib", "libstreamer.dylib"] <:+ (get_library_path pkgDir "darwin").components ∧
    STREAMER_LIBRARY (some "/custom/libstreamer.so") pkgDir "linux" =
      "/custom/libstreamer.so" := by
  obtain ⟨h1, _, h3, h4⟩ := C9_get_library_path pkgDir "linux" rfl
  obtain ⟨_, h2d, _, _⟩ := C9_get_library_path pkgDir "darwin" rfl
  exact ⟨h1, h3 (by decide), h2d rfl, h4 _⟩

/-- C1: for every successfully submitted batch, submit returns the
number of completion slots the engine reported through the `num_sizes`
out-parameter of the binding (declared as `POINTER(c_uint32)` at
position 6), whatever its relation to the number of items. -/
theorem C1_submit_surfaces_slot_count (eng : Engine) (s : Session)
    (items : List StreamItem) (creds : StorageCredentials) (n : Nat)
    (hopen : s.closed = false) (hvalid : batchValid items = true)
    (hres : eng.submitResult items creds = (0, n)) :
    fn_runai_request_sig.argtypes[6]? = some (CType.ptr CType.cuint32) ∧
    (submit eng s items creds).1 =
      Except.ok ({ s with pending := s.pending + n }, n) := by
  refine ⟨rfl, ?_⟩
  simp [submit, hopen, hvalid, hres]

/-- C1 witness: a one-item batch for which the engine reports seven
completion slots; submit surfaces 7, not the item count. -/
theorem C1_witness :
    ([sampleItem] : List StreamItem).length ≠ 7 ∧
    (submit engAccept7 openS [sampleItem] noCreds).1 =
      Except.ok ({ openS with pending := openS.pending + 7 }, 7) :=
  ⟨by decide,
   (C1_submit_surfaces_slot_count engAccept7 openS [sampleItem] noCreds 7
      rfl (by decide) rfl).2⟩

/-- C2: closing a session succeeds locally, and on the closed session
every subsequent submit or poll fails deterministically with the locally
detected `SessionClosed` protocol-misuse error — distinct from every
engine-reported failure — without any engine call being made. -/
theorem C2_use_after_close (eng : Engine) (s0 : Session)
    (h0 : s0.closed = false) :
    (closeSession eng s0).1 = Except.ok { s0 with closed := true } ∧
    (∀ items creds, submit eng { s0 with closed := true } items creds =
      (Except.error StreamerError.SessionClosed, [])) ∧
    poll eng { s0 with closed := true } =
      (Except.error StreamerError.SessionClosed, []) ∧
    StreamerError.SessionClosed.isProtocolMisuse = true ∧
    StreamerError.SessionClosed.isEngineReported = false := by
  refine ⟨by simp [closeSession, h0], fun items creds => by simp [submit],
    by simp [poll], rfl, rfl⟩

/-- C2 witness: after closing a concrete open session, submit and poll
both fail with `SessionClosed` and an empty engine-call trace. -/
theorem C2_witness :
    (closeSession engAccept7 openS).1 = Except.ok { openS with closed := true } ∧
    submit engAccept7 { openS with closed := true } [sampleItem] noCreds =
      (Except.error StreamerError.SessionClosed, []) ∧
    poll engAccept7 { openS with closed := true } =
      (Except.error StreamerError.SessionClosed, []) := by
  obtain ⟨h1, h2, h3, _, _⟩ := C2_use_after_close engAccept7 openS rfl
  exact ⟨h1, h2 [sampleItem] noCreds, h3⟩

/-- C3: an empty batch, a zero-length item, or an undersized destination
makes submit fail locally with `InvalidArgument`, with no engine call
made. -/
theorem C3_invalid_batch_local (eng : Engine) (s : Session)
    (items : List StreamItem) (creds : StorageCredentials)
    (hopen : s.closed = false)
    (hbad : items = [] ∨ ∃ it ∈ items, it.length = 0 ∨ it.dstCapacity < it.length) :
    submit eng s items creds = (Except.error StreamerError.InvalidArgument, []) := by
  have hbv : batchValid items = false := by
    rcases hbad with h | ⟨it, hmem, hit⟩
    · simp [batchValid, h]
    · have hall : items.all itemValid = false := by
        rw [Bool.eq_false_iff]
        intro hAll
        rw [List.all_eq_true] at hAll
        have hv := hAll it hmem
        unfold itemValid at hv
        rw [Bool.and_eq_true, decide_eq_true_iff, decide_eq_true_iff] at hv
        rcases hit with h0 | hc <;> omega
      simp [batchValid, hall]
  simp [submit, hopen, hbv]

/-- C3 witness: the empty batch and a capacity-violating batch both fail
with `InvalidArgument` and an empty engine-call trace. -/
theorem C3_witness :
    submit engAccept7 openS [] noCreds =
      (Except.error StreamerError.InvalidArgument, []) ∧
    submit engAccept7 openS [overlongItem] noCreds =
      (Except.error StreamerError.InvalidArgument, []) :=
  ⟨C3_invalid_batch_local engAccept7 openS [] noCreds rfl (Or.inl rfl),
   C3_invalid_batch_local engAccept7 openS [overlongItem] noCreds rfl
     (Or.inr ⟨overlongItem, by simp, Or.inr (by decide)⟩)⟩

/-- C4: the five credential fields are independently optional — each is
encoded from its own field alone into one of the five trailing
`c_char_p` arguments of the binding — and an absent field is passed as
NULL, distinct from the encoding of an empty string. -/
theorem C4_credential_encoding (eng : Engine) (s : Session)
    (items : List StreamItem) (creds : StorageCredentials)
    (hopen : s.closed = false) (hvalid : batchValid items = true) :
    fn_runai_request_sig.argtypes.drop 8 = List.replicate 5 CType.cchar_p ∧
    (submit eng s items creds).2 =
      [EngineCall.submitCall items.length (items.map StreamItem.source)
        (items.map StreamItem.file_offset) (items.map StreamItem.length)
        [encodeOptStr creds.key, encodeOptStr creds.secret,
         encodeOptStr creds.token, encodeOptStr creds.region,
         encodeOptStr creds.endpoint]] ∧
    encodeOptStr none = CCharPArg.null ∧
    (∀ str, encodeOptStr (some str) = CCharPArg.cstr str) ∧
    encodeOptStr none ≠ encodeOptStr (some "") := by
  refine ⟨by decide, ?_, rfl, fun str => rfl, by decide⟩
  unfold submit
  simp [hopen, hvalid, encodeCredentials]
  split <;> rfl

/-- C4 witness: a mixed credential record (empty-string key, absent
secret and token, present region and endpoint) crosses the boundary with
the key as an empty C string, NULLs for the absent fields, and the
present fields verbatim. -/
theorem C4_witness :
    (submit engAccept7 openS [sampleItem] mixedCreds).2 =
      [EngineCall.submitCall 1 ["model.bin"] [0] [10]
        [CCharPArg.cstr "", CCharPArg.null, CCharPArg.null,
         CCharPArg.cstr "us-east-1", CCharPArg.cstr "http://s3.local"]] :=
  (C4_credential_encoding engAccept7 openS [sampleItem] mixedCreds rfl
     (by decide)).2.1

end Libstreamer
